import Mathlib

/-! Verification of the project-rpa aggregation pipeline and API client.

The definitions below are a shallow embedding of the Python source:
  - src/models/post.py, src/models/user.py (data model)
  - src/processors/data_processor.py (validator, aggregator, gate)
  - src/utils/helpers.py (ordering)
  - src/api/client.py (single request with retry, pagination)

Python floats are modelled as exact rationals (the quantities involved are
means of natural numbers), machine ints as Int/Nat, and Python str.strip as
String.trim. Stateful and I/O behaviour (HTTP transport, the metrics file
write, the backoff sleeps) is modelled by passing outcome functions and by
recording traces explicitly.
-/

namespace RPA

/-- Embeds src/models/post.py: dataclass Post with id, user_id, title, body. -/
structure Post where
  id : Int
  user_id : Int
  title : String
  body : String
deriving Repr, DecidableEq

/-- Embeds src/models/user.py: pydantic model User. The fields posts,
post_count and avg_chars default to empty/zero and are later overwritten by
DataProcessor.calculate_metrics. -/
structure User where
  id : Int
  name : String
  username : String
  email : String
  posts : List Post := []
  post_count : Nat := 0
  avg_chars : Rat := 0
deriving Repr, DecidableEq

/-- Embeds DataProcessor.calculate_metrics (data_processor.py lines 100-145):
filters the posts whose user_id equals the id of the given user, stores them
on the user, sets post_count to their number, and sets avg_chars to the mean
of the stripped body lengths (0 when the user owns no posts). The Python code
assigns the three fields one by one on the same object; the record update
below performs exactly those three overwrites. -/
def calculate_metrics (user : User) (posts : List Post) : User :=
  let user_posts := posts.filter (fun p => p.user_id == user.id)
  let avg : Rat :=
    if user_posts.isEmpty then 0
    else ((user_posts.map (fun p => p.body.trim.length)).sum : Rat) / (user_posts.length : Rat)
  { user with posts := user_posts, post_count := user_posts.length, avg_chars := avg }

/-- Embeds sort_users_by_post_count = sorted(users, key=lambda x: x.post_count or 0,
reverse=True) from src/utils/helpers.py. CPython sorted is a stable sort, and
with reverse=True elements with equal keys still keep their input order; since
post_count is a non-negative int, the key (post_count or 0) coincides with
post_count. We embed this contract as a stable insertion sort, descending by
post_count: insertDesc places an element before the first element whose count
is not larger, so an earlier input element precedes later ones of equal count. -/
def insertDesc (x : User) : List User → List User
  | [] => [x]
  | y :: ys => if x.post_count < y.post_count then y :: insertDesc x ys else x :: y :: ys

/-- The stable descending sort: each element is inserted into the sorted tail. -/
def sort_users_by_post_count : List User → List User
  | [] => []
  | x :: xs => insertDesc x (sort_users_by_post_count xs)

/-- Embeds DataProcessor.validate_users (data_processor.py lines 147-155):
raises ValueError when the user list is empty; otherwise logs a warning when
any user has a falsy (zero) post_count. The Except value carries whether the
warning branch was taken. -/
def validate_users (users : List User) : Except String Bool :=
  if users.isEmpty then Except.error "Nenhum dado disponivel para exportacao"
  else Except.ok (users.any (fun u => u.post_count == 0))

/-- A raw user record as consumed by DataProcessor.process_users: a JSON
mapping that may lack any of the four fields of the User model. -/
structure RawUser where
  id : Option Int
  name : Option String
  username : Option String
  email : Option String
deriving Repr, DecidableEq

/-- Embeds the pydantic constructor call UserModel(**user) in process_users:
the model declares id, name, username and email as required fields without
defaults, so construction succeeds exactly when all four are present, and
raises ValidationError otherwise (modelled by none). -/
def mkUserModel (r : RawUser) : Option User :=
  match r.id, r.name, r.username, r.email with
  | some i, some n, some un, some em =>
    some { id := i, name := n, username := un, email := em }
  | _, _, _, _ => none

/-- Embeds DataProcessor.process_users (data_processor.py lines 18-59): a
record lacking the id or name key is skipped (logged, loop continues); then
UserModel(**user) is attempted and a ValidationError is caught and logged,
skipping the record; valid users are appended in input order. -/
def process_users : List RawUser → List User
  | [] => []
  | r :: rs =>
    if r.id.isNone || r.name.isNone then process_users rs
    else
      match mkUserModel r with
      | some u => u :: process_users rs
      | none => process_users rs

/-- Outcome of one call of APIClient.get (client.py lines 32-68). ok models
the return of response.json(); apiError models the APIError raised once the
last attempt fails; noneReturn models the implicit None return when
max_retries is 0 and the loop body never runs; metricsError models an
exception raised by the metrics file write in _log_performance_metrics
(an OSError is not a requests RequestException, so the except clause does not
catch it and it propagates out of get). -/
inductive GetOutcome (α : Type) where
  | ok (body : α)
  | apiError
  | noneReturn
  | metricsError
deriving Repr, DecidableEq

/-- Trace of one APIClient.get call: the outcome, how many HTTP requests were
issued, and the backoff durations (in seconds) slept between attempts. -/
structure GetTrace (α : Type) where
  result : GetOutcome α
  attempts : Nat
  sleeps : List Nat
deriving Repr, DecidableEq

/-- Embeds the retry loop of APIClient.get: for attempt in range(max_retries).
transport a = some body means the HTTP request of attempt a succeeds with that
JSON body; none means it raises a RequestException. metricsOk a tells whether
the metrics file write after a successful attempt a succeeds. The fuel
argument counts the remaining iterations, so fuel = 0 inside the match is
exactly the Python test attempt == max_retries - 1: the exception is reraised
as an APIError; otherwise the loop sleeps 2 ^ attempt seconds and retries. -/
def getLoop (transport : Nat → Option α) (metricsOk : Nat → Bool) :
    Nat → Nat → GetTrace α
  | _, 0 => ⟨.noneReturn, 0, []⟩
  | attempt, fuel + 1 =>
    match transport attempt with
    | some body =>
      if metricsOk attempt then ⟨.ok body, 1, []⟩ else ⟨.metricsError, 1, []⟩
    | none =>
      if fuel = 0 then ⟨.apiError, 1, []⟩
      else
        let t := getLoop transport metricsOk (attempt + 1) fuel
        ⟨t.result, t.attempts + 1, 2 ^ attempt :: t.sleeps⟩

/-- Embeds APIClient.get (client.py lines 32-68), starting the attempt counter
at 0 with max_retries iterations available. -/
def get (maxRetries : Nat) (transport : Nat → Option α) (metricsOk : Nat → Bool) :
    GetTrace α :=
  getLoop transport metricsOk 0 maxRetries

/-- A pagination parameter mapping: a Python dict from string keys to values,
as an association list in insertion order. -/
abbrev Params := List (String × Int)

/-- Embeds dict.update for one key (client.py lines 200-203): an existing key
keeps its position and gets the new value, a new key is appended. -/
def setParam (ps : Params) (k : String) (v : Int) : Params :=
  if ps.any (fun p => p.1 == k) then
    ps.map (fun p => if p.1 == k then (k, v) else p)
  else ps ++ [(k, v)]

/-- Trace of one APIClient.get_paginated call: the collected records, how many
page requests were issued, and the state of the params dict after the loop.
Python passes the dict by reference: when the caller supplies a non-empty
dict, the expression (params or \x7b\x7d) yields that same object, so
finalParams is the state of the callers mapping after get_paginated returns. -/
structure PageTrace (α : Type) where
  results : List α
  requests : Nat
  finalParams : Params
deriving DecidableEq, Repr

/-- Embeds the while loop of APIClient.get_paginated (client.py lines
195-222). fetch page = some resp means self.get for that page number returns
resp; none means get raised an APIError (retries exhausted), which the loop
catches and turns into a break. fuel counts the pages still allowed by
page <= max_pages. Each iteration first updates the shared params dict with
the current page and limit, then issues the request; an empty response breaks
before extending, a short response extends then breaks, a full response
extends and continues with the next page. -/
def paginateLoop (fetch : Nat → Option (List α)) (pageSize : Nat) :
    Nat → Nat → Params → List α → PageTrace α
  | 0, _, params, acc => ⟨acc, 0, params⟩
  | fuel + 1, page, params, acc =>
    let params := setParam (setParam params "_page" (page : Int)) "_limit" (pageSize : Int)
    match fetch page with
    | none => ⟨acc, 1, params⟩
    | some resp =>
      if resp.isEmpty then ⟨acc, 1, params⟩
      else if resp.length < pageSize then ⟨acc ++ resp, 1, params⟩
      else
        let t := paginateLoop fetch pageSize fuel (page + 1) params (acc ++ resp)
        ⟨t.results, t.requests + 1, t.finalParams⟩

/-- Embeds APIClient.get_paginated: pages start at 1, at most maxPages pages
(max_pages = 10, page_size = 100 in the source constructor), accumulator
starts empty, and the supplied params mapping is updated in place. -/
def get_paginated (maxPages pageSize : Nat) (fetch : Nat → Option (List α))
    (params0 : Params) : PageTrace α :=
  paginateLoop fetch pageSize maxPages 1 params0 []

/-- A user record with only the fields relevant to ordering and gating. -/
def mkU (i : Int) (c : Nat) : User :=
  { id := i, name := "", username := "", email := "", post_count := c }

/-- The raw input of testable property 5 of the spec. -/
def specExample : List RawUser :=
  [⟨some 1, some "A", none, none⟩,
   ⟨none, some "B", none, none⟩,
   ⟨some 3, some "C", none, none⟩]

/-- The same records augmented with the username and email fields that the
pydantic User model requires. -/
def specExampleFull : List RawUser :=
  [⟨some 1, some "A", some "a1", some "a@x"⟩,
   ⟨none, some "B", none, none⟩,
   ⟨some 3, some "C", some "c3", some "c@x"⟩]

lemma insertDesc_perm (x : User) (l : List User) :
    (insertDesc x l).Perm (x :: l) := by
  induction l with
  | nil => simp [insertDesc]
  | cons y ys ih =>
    by_cases h : x.post_count < y.post_count
    · simp only [insertDesc, if_pos h]
      exact ((ih.cons y).trans (List.Perm.swap x y ys))
    · simp [insertDesc, if_neg h]

lemma mem_insertDesc {x z : User} {l : List User} (hz : z ∈ insertDesc x l) :
    z = x ∨ z ∈ l := by
  have := (insertDesc_perm x l).mem_iff.mp hz
  simpa using this

lemma insertDesc_pairwise {x : User} {l : List User}
    (hl : l.Pairwise (fun a b => b.post_count ≤ a.post_count)) :
    (insertDesc x l).Pairwise (fun a b => b.post_count ≤ a.post_count) := by
  induction l with
  | nil => simp [insertDesc]
  | cons y ys ih =>
    rcases List.pairwise_cons.mp hl with ⟨hy, hys⟩
    by_cases h : x.post_count < y.post_count
    · simp only [insertDesc, if_pos h]
      refine List.pairwise_cons.mpr ⟨?_, ih hys⟩
      intro z hz
      rcases mem_insertDesc hz with rfl | hz
      · exact Nat.le_of_lt h
      · exact hy z hz
    · simp only [insertDesc, if_neg h]
      refine List.pairwise_cons.mpr ⟨?_, hl⟩
      intro z hz
      rcases List.mem_cons.mp hz with rfl | hz
      · exact Nat.le_of_not_lt h
      · exact le_trans (hy z hz) (Nat.le_of_not_lt h)

lemma filter_insertDesc (k : Nat) (x : User) (l : List User) :
    (insertDesc x l).filter (fun u => u.post_count == k) =
      if x.post_count == k then x :: l.filter (fun u => u.post_count == k)
      else l.filter (fun u => u.post_count == k) := by
  induction l with
  | nil => by_cases hx : x.post_count == k <;> simp [insertDesc, hx]
  | cons y ys ih =>
    by_cases h : x.post_count < y.post_count
    · simp only [insertDesc, if_pos h]
      by_cases hx : x.post_count == k
      · have hk : x.post_count = k := by simpa using hx
        have hy : (y.post_count == k) = false := by
          simp only [beq_eq_false_iff_ne, ne_eq]
          omega
        simp [List.filter_cons, hy, ih, hx]
      · by_cases hy : y.post_count == k <;>
          simp [List.filter_cons, hy, ih, hx]
    · simp only [insertDesc, if_neg h]
      by_cases hx : x.post_count == k <;>
        simp [List.filter_cons, hx]

lemma sort_users_perm (l : List User) :
    (sort_users_by_post_count l).Perm l := by
  induction l with
  | nil => simp [sort_users_by_post_count]
  | cons x xs ih =>
    exact (insertDesc_perm x (sort_users_by_post_count xs)).trans (ih.cons x)

lemma sort_users_pairwise (l : List User) :
    (sort_users_by_post_count l).Pairwise (fun a b => b.post_count ≤ a.post_count) := by
  induction l with
  | nil => simp [sort_users_by_post_count]
  | cons x xs ih => exact insertDesc_pairwise ih

lemma sort_users_filter (l : List User) (k : Nat) :
    (sort_users_by_post_count l).filter (fun u => u.post_count == k)
      = l.filter (fun u => u.post_count == k) := by
  induction l with
  | nil => rfl
  | cons x xs ih =>
    simp only [sort_users_by_post_count, filter_insertDesc, ih, List.filter_cons]

/-- C6: sorting entities by item count is a stable descending sort: the
output is a permutation of the input, ordered by non-increasing post_count;
for every count value the subsequence of entities with that count is kept
exactly as in the input (so equal-count entities retain their relative
order); and the concrete input with counts [3, 7, 3] sorts to [7, 3, 3] with
the two count-3 entities in original relative order (witnessed by their ids). -/
theorem sort_users_stable_desc_spec (l : List User) :
    (sort_users_by_post_count l).Perm l
    ∧ (sort_users_by_post_count l).Pairwise (fun a b => b.post_count ≤ a.post_count)
    ∧ (∀ k, (sort_users_by_post_count l).filter (fun u => u.post_count == k)
        = l.filter (fun u => u.post_count == k))
    ∧ (sort_users_by_post_count [mkU 1 3, mkU 2 7, mkU 3 3]).map
        (fun u => (u.id, u.post_count)) = [(2, 7), (1, 3), (3, 3)] :=
  ⟨sort_users_perm l, sort_users_pairwise l, sort_users_filter l, by rfl⟩

/-- C1: for every user and post list, calculate_metrics attaches exactly the
posts whose owner foreign key equals the id of the user, in the relative
order they appear in the input list (the order-preserving selection is the
filter); sets post_count to the number of such posts; and sets avg_chars to
the mean of the trimmed body lengths of the owned posts under exact (float)
division, or to 0 when the user owns no posts. -/
theorem calculate_metrics_spec (user : User) (posts : List Post) :
    (calculate_metrics user posts).posts = posts.filter (fun p => p.user_id == user.id)
    ∧ (calculate_metrics user posts).post_count
        = posts.countP (fun p => p.user_id == user.id)
    ∧ (calculate_metrics user posts).avg_chars =
        (if posts.countP (fun p => p.user_id == user.id) = 0 then 0
         else ((posts.filter (fun p => p.user_id == user.id)).map
                 (fun p => (p.body.trim.length : Rat))).sum
           / (posts.countP (fun p => p.user_id == user.id) : Rat)) := by
  have hcount : posts.countP (fun p => p.user_id == user.id)
      = (posts.filter (fun p => p.user_id == user.id)).length :=
    List.countP_eq_length_filter _ _
  refine ⟨rfl, hcount.symm, ?_⟩
  by_cases h : posts.filter (fun p => p.user_id == user.id) = []
  · simp [calculate_metrics, h, hcount]
  · have hne : ((posts.filter (fun p => p.user_id == user.id)).isEmpty) = false := by
      simpa [List.isEmpty_iff] using h
    have hlen : (posts.filter (fun p => p.user_id == user.id)).length ≠ 0 := by
      simpa [List.length_eq_zero] using h
    simp only [calculate_metrics, hne, Bool.false_eq_true, if_false, hcount,
      if_neg hlen, Nat.cast_list_sum, List.map_map]

/-- C8: aggregation is idempotent: running calculate_metrics a second time on
its own output with the same unmodified post list yields the same three
derived fields (posts, post_count, avg_chars) as running it once, because the
aggregator fully overwrites those fields and only reads the unchanged id. -/
theorem calculate_metrics_idempotent (user : User) (posts : List Post) :
    (calculate_metrics (calculate_metrics user posts) posts).posts
        = (calculate_metrics user posts).posts
    ∧ (calculate_metrics (calculate_metrics user posts) posts).post_count
        = (calculate_metrics user posts).post_count
    ∧ (calculate_metrics (calculate_metrics user posts) posts).avg_chars
        = (calculate_metrics user posts).avg_chars := by
  refine ⟨rfl, rfl, rfl⟩

/-- C7: the pre-render gate returns without raising exactly when the user
list is non-empty; in particular a non-empty list in which every user has
post_count 0 passes the gate, with the warning branch taken. -/
theorem validate_users_gate (users : List User) :
    ((∃ w, validate_users users = Except.ok w) ↔ users ≠ [])
    ∧ (users ≠ [] → (∀ u ∈ users, u.post_count = 0) →
        validate_users users = Except.ok true) := by
  constructor
  · cases users with
    | nil => simp [validate_users]
    | cons u us => simp [validate_users]
  · intro hne hzero
    cases users with
    | nil => exact absurd rfl hne
    | cons u us =>
      have hu : u.post_count = 0 := hzero u (List.mem_cons_self u us)
      simp [validate_users, List.any_cons, hu]

/-- Witness for C7: the singleton list with one zero-count user passes the
gate with the warning flag, by the theorem itself. -/
theorem validate_users_gate_witness :
    validate_users [mkU 1 0] = Except.ok true :=
  (validate_users_gate [mkU 1 0]).2 (by simp)
    (by intro u hu; rw [List.mem_singleton.mp hu]; rfl)

/-- C2 counterexample: on the input of testable property 5, the normalizer
returns no entities at all (each record with id and name still lacks the
username and email fields that the pydantic User model requires without
defaults, so UserModel(**user) raises ValidationError and the record is
skipped); the claimed output ids [1, 3] are not produced. -/
theorem process_users_spec_example_fails :
    (process_users specExample).map (fun u => u.id) = []
    ∧ (process_users specExample).map (fun u => u.id) ≠ [1, 3] := by
  exact ⟨rfl, by decide⟩

/-- C2 (amended): the normalizer skips a record lacking id or name without
raising; a record that the User model accepts (all four required fields
present) is kept, in input order, ahead of the processing of the remaining
records; the concrete input of testable property 5 maps to no entities,
while the same records augmented with username and email map to ids [1, 3]
in that order. -/
theorem process_users_amended :
    (∀ r rs, (r.id = none ∨ r.name = none) →
        process_users (r :: rs) = process_users rs)
    ∧ (∀ r rs u, mkUserModel r = some u →
        process_users (r :: rs) = u :: process_users rs)
    ∧ (process_users specExample).map (fun u => u.id) = []
    ∧ (process_users specExampleFull).map (fun u => u.id) = [1, 3] := by
  refine ⟨?_, ?_, rfl, rfl⟩
  · rintro ⟨i, n, un, em⟩ rs (h | h) <;> simp_all [process_users]
  · rintro ⟨i, n, un, em⟩ rs u hu
    cases i <;> cases n <;> cases un <;> cases em <;>
      simp_all [mkUserModel, process_users]

/-- Witness for C2 (amended): applying the amended theorem at the concrete
records of testable property 5. -/
theorem process_users_amended_witness :
    process_users (⟨none, some "B", none, none⟩ :: specExampleFull)
        = process_users specExampleFull
    ∧ process_users (⟨some 1, some "A", some "a1", some "a@x"⟩ :: [])
        = [{ id := 1, name := "A", username := "a1", email := "a@x" }]
    ∧ (process_users specExampleFull).map (fun u => u.id) = [1, 3] :=
  ⟨process_users_amended.1 _ _ (Or.inl rfl),
   process_users_amended.2.1 _ [] _ rfl,
   process_users_amended.2.2.2⟩

lemma getLoop_all_fail (transport : Nat → Option α) (metricsOk : Nat → Bool) :
    ∀ fuel attempt, 0 < fuel → (∀ a, a < attempt + fuel → transport a = none) →
      getLoop transport metricsOk attempt fuel
        = ⟨GetOutcome.apiError, fuel,
            (List.range' attempt (fuel - 1)).map (fun a => 2 ^ a)⟩ := by
  intro fuel
  induction fuel with
  | zero => intro attempt hpos _; omega
  | succ f ih =>
    intro attempt _ h
    have ht : transport attempt = none := h attempt (by omega)
    cases f with
    | zero => simp [getLoop, ht]
    | succ g =>
      have hrec := ih (attempt + 1) (by omega) (fun a ha => h a (by omega))
      have step : getLoop transport metricsOk attempt (g + 1 + 1)
          = ⟨(getLoop transport metricsOk (attempt + 1) (g + 1)).result,
             (getLoop transport metricsOk (attempt + 1) (g + 1)).attempts + 1,
             2 ^ attempt :: (getLoop transport metricsOk (attempt + 1) (g + 1)).sleeps⟩ := by
        conv_lhs => rw [getLoop]
        rw [ht]
        simp
      rw [step, hrec]
      simp [List.range'_succ]

lemma getLoop_first_success (transport : Nat → Option α) (metricsOk : Nat → Bool) :
    ∀ fuel attempt k body, k < fuel →
      (∀ a, attempt ≤ a → a < attempt + k → transport a = none) →
      transport (attempt + k) = some body → metricsOk (attempt + k) = true →
      (getLoop transport metricsOk attempt fuel).result = GetOutcome.ok body
      ∧ (getLoop transport metricsOk attempt fuel).attempts = k + 1 := by
  intro fuel
  induction fuel with
  | zero => intro attempt k body hk; omega
  | succ f ih =>
    intro attempt k body hk hfail hsucc hmet
    cases k with
    | zero =>
      have ht : transport attempt = some body := by simpa using hsucc
      have hm : metricsOk attempt = true := by simpa using hmet
      simp [getLoop, ht, hm]
    | succ j =>
      have ht : transport attempt = none := hfail attempt (le_refl _) (by omega)
      have hrec := ih (attempt + 1) j body (by omega)
        (fun a ha hb => hfail a (by omega) (by omega))
        (by have : attempt + 1 + j = attempt + (j + 1) := by omega
            rw [this]; exact hsucc)
        (by have : attempt + 1 + j = attempt + (j + 1) := by omega
            rw [this]; exact hmet)
      have hf : f ≠ 0 := by omega
      simp only [getLoop, ht, if_neg hf]
      exact ⟨hrec.1, by simp [hrec.2]⟩

/-- C5: when every transport attempt fails, get performs exactly maxRetries
requests, sleeping 2 ^ attempt seconds between consecutive attempts (attempts
0 to maxRetries - 2, no sleep after the last one), and ends in the APIError
outcome; and when the first transport success happens at attempt k (with the
metrics write succeeding there, see the separate metrics-failure result), get
returns that response body after exactly k + 1 requests. -/
theorem get_retry_contract (maxRetries : Nat) (transport : Nat → Option α)
    (metricsOk : Nat → Bool) (hpos : 0 < maxRetries) :
    ((∀ a, a < maxRetries → transport a = none) →
      get maxRetries transport metricsOk
        = ⟨GetOutcome.apiError, maxRetries,
            (List.range (maxRetries - 1)).map (fun a => 2 ^ a)⟩)
    ∧ (∀ k body, k < maxRetries → (∀ a, a < k → transport a = none) →
        transport k = some body → metricsOk k = true →
        (get maxRetries transport metricsOk).result = GetOutcome.ok body
        ∧ (get maxRetries transport metricsOk).attempts = k + 1) := by
  constructor
  · intro hfail
    rw [List.range_eq_range']
    exact getLoop_all_fail transport metricsOk maxRetries 0 hpos
      (fun a ha => hfail a (by omega))
  · intro k body hk hfail hsucc hmet
    exact getLoop_first_success transport metricsOk maxRetries 0 k body hk
      (fun a _ ha => hfail a (by omega)) (by simpa using hsucc)
      (by simpa using hmet)

/-- Witness for C5: with the configured max_retries = 3 and an always-failing
transport, get makes 3 attempts, sleeps 1 then 2 seconds, and ends in
APIError; with a transport succeeding at attempt 1, it returns the body after
2 attempts. -/
theorem get_retry_contract_witness :
    get 3 (fun _ => (none : Option Nat)) (fun _ => true)
        = ⟨GetOutcome.apiError, 3, [1, 2]⟩
    ∧ (get 3 (fun a => if a = 1 then some 42 else none) (fun _ => true)).result
        = GetOutcome.ok 42
    ∧ (get 3 (fun a => if a = 1 then some 42 else none) (fun _ => true)).attempts
        = 2 := by
  refine ⟨?_, ?_, ?_⟩
  · have h := (get_retry_contract 3 (fun _ => (none : Option Nat))
      (fun _ => true) (by decide)).1 (fun a _ => rfl)
    rw [h]
    rfl
  · exact ((get_retry_contract 3 (fun a => if a = 1 then some 42 else none)
      (fun _ => true) (by decide)).2 1 42 (by decide)
      (by intro a ha
          have : a = 0 := by omega
          subst this; rfl) rfl rfl).1
  · exact ((get_retry_contract 3 (fun a => if a = 1 then some 42 else none)
      (fun _ => true) (by decide)).2 1 42 (by decide)
      (by intro a ha
          have : a = 0 := by omega
          subst this; rfl) rfl rfl).2

/-- C9 failing input: the transport succeeds on the first attempt with body 7
but the metrics file write raises; the exception is not a RequestException,
so the except clause of get does not catch it and get fails instead of
returning the body, contradicting the spec sentence that failure to record
the duration must never fail the request. -/
theorem get_metrics_failure_bug :
    (get 3 (fun _ => some (7 : Nat)) (fun _ => false)).result
        = GetOutcome.metricsError
    ∧ (get 3 (fun _ => some (7 : Nat)) (fun _ => false)).result
        ≠ GetOutcome.ok 7 :=
  ⟨rfl, by decide⟩

/-- C3: when the first page returns a non-empty page with fewer records than
page_size, get_paginated appends that page and stops: it returns exactly that
page and performs exactly one request. -/
theorem get_paginated_short_page (maxPages pageSize : Nat)
    (fetch : Nat → Option (List α)) (params0 : Params) (resp : List α)
    (hmp : 1 ≤ maxPages) (h1 : fetch 1 = some resp) (hne : resp ≠ [])
    (hshort : resp.length < pageSize) :
    (get_paginated maxPages pageSize fetch params0).results = resp
    ∧ (get_paginated maxPages pageSize fetch params0).requests = 1 := by
  obtain ⟨f, rfl⟩ : ∃ f, maxPages = f + 1 := ⟨maxPages - 1, by omega⟩
  have hE : resp.isEmpty = false := by simpa [List.isEmpty_iff] using hne
  simp [get_paginated, paginateLoop, h1, hE, hshort]

/-- Witness for C3: a single one-record page with page_size 100 and
max_pages 10 (the constructor values). -/
theorem get_paginated_short_page_witness :
    (get_paginated 10 100 (fun _ => some [(5 : Nat)]) []).results = [5]
    ∧ (get_paginated 10 100 (fun _ => some [(5 : Nat)]) []).requests = 1 :=
  get_paginated_short_page 10 100 _ [] [5] (by decide) rfl (by decide) (by decide)

/-- C4: a failed page fetch (retries exhausted inside get, surfacing as an
APIError) is caught by the pagination loop, which stops and returns exactly
the records collected from the earlier pages, raising nothing; in particular
when page 1 succeeds with a full page and every attempt of page 2 fails,
get_paginated returns exactly the records of page 1, after 2 requests. -/
theorem get_paginated_degrades (maxPages pageSize : Nat)
    (fetch : Nat → Option (List α)) (params0 : Params) (p1 : List α) :
    (∀ fuel page params acc, 0 < fuel → fetch page = none →
        (paginateLoop fetch pageSize fuel page params acc).results = acc)
    ∧ (2 ≤ maxPages → fetch 1 = some p1 → p1.length = pageSize → 0 < pageSize →
        fetch 2 = none →
        (get_paginated maxPages pageSize fetch params0).results = p1
        ∧ (get_paginated maxPages pageSize fetch params0).requests = 2) := by
  constructor
  · intro fuel page params acc hf hnone
    obtain ⟨g, rfl⟩ : ∃ g, fuel = g + 1 := ⟨fuel - 1, by omega⟩
    simp [paginateLoop, hnone]
  · intro hmp h1 hfull hps h2
    obtain ⟨g, rfl⟩ : ∃ g, maxPages = g + 2 := ⟨maxPages - 2, by omega⟩
    have hE : p1.isEmpty = false := by
      cases p1 with
      | nil => simp at hfull; omega
      | cons a l => rfl
    have hnotshort : ¬ p1.length < pageSize := by omega
    simp [get_paginated, paginateLoop, h1, hE, hnotshort, h2]

/-- Witness for C4: page 1 full (100 records), all attempts of page 2 fail;
the result is exactly page 1. The second conjunct applies the general
degradation statement to an accumulator with prior records. -/
theorem get_paginated_degrades_witness :
    (get_paginated 10 100
        (fun p => if p = 1 then some (List.replicate 100 (0 : Nat)) else none)
        []).results = List.replicate 100 0
    ∧ (paginateLoop (fun _ => (none : Option (List Nat))) 100 10 1 [] [7]).results
        = [7] := by
  constructor
  · exact ((get_paginated_degrades 10 100
      (fun p => if p = 1 then some (List.replicate 100 (0 : Nat)) else none)
      [] (List.replicate 100 0)).2 (by decide) rfl (by simp) (by decide) rfl).1
  · exact (get_paginated_degrades 10 100 (fun _ => (none : Option (List Nat)))
      [] []).1 10 1 [] [7] (by decide) rfl

/-- C10 failing input: get_paginated called with the caller mapping
[(q, 5)] and a short first page. Python passes dicts by reference and
params.update mutates the shared object, so after the call the caller
mapping has gained the _page and _limit entries: it is not unchanged, and no
fresh parameter set is constructed per page. -/
theorem get_paginated_mutates_params :
    (get_paginated 10 100 (fun _ => some [(1 : Nat)]) [("q", 5)]).finalParams
        = [("q", 5), ("_page", 1), ("_limit", 100)]
    ∧ (get_paginated 10 100 (fun _ => some [(1 : Nat)]) [("q", 5)]).finalParams
        ≠ [("q", 5)] :=
  ⟨rfl, by decide⟩

end RPA
